import Mathlib

/-!
Verification of the streaming event translator and HTTP facade of a local
REST gateway to an LLM provider SDK (`src/main.py`, `src/app/streaming.py`,
`src/app/models_api.py`, `src/app/batches_api.py`).

The embedding is shallow: Python dictionaries that are JSON-encoded become a
`Json` value type together with a character-exact model of `json.dumps`
(default arguments: `ensure_ascii=True`, separators `", "` and `": "`);
provider event objects become an inductive whose constructors carry exactly
the attributes `_format_event` dereferences (attributes read with a bare
`event.attr` are required fields, attributes read through `getattr` with a
default are `Option` fields); a raised Python exception is an
`Except.error` carrying the `str(e)` message.
-/

namespace AnthropicServer

/-- JSON values producible by the gateway: the payloads handed to
`json.dumps` in `streaming.py` and the static dictionaries of the facade. -/
inductive Json where
  | null
  | bool (b : Bool)
  | num (n : Int)
  | str (s : String)
  | arr (elems : List Json)
  | obj (fields : List (String × Json))
deriving Repr

/-- Lowercase hexadecimal digit character for `n < 16`, as CPython's
`'\u%04x' % n` formatting produces. -/
def hexDigitChar (n : Nat) : Char :=
  if n < 10 then Char.ofNat (48 + n) else Char.ofNat (87 + n)

/-- Four lowercase hex digits of `n < 0x10000`, most significant first. -/
def hex4 (n : Nat) : List Char :=
  [hexDigitChar (n / 4096 % 16), hexDigitChar (n / 256 % 16),
   hexDigitChar (n / 16 % 16), hexDigitChar (n % 16)]

/-- One character as CPython `json.dumps` (with its default
`ensure_ascii=True`) writes it inside a string literal: the two JSON
specials and the five short escapes are backslash-escaped, printable ASCII
passes through, and everything else becomes `\uXXXX` (astral characters as
a surrogate pair). -/
def escapeChar (c : Char) : List Char :=
  if c = '"' then ['\\', '"']
  else if c = '\\' then ['\\', '\\']
  else if c = '\x08' then ['\\', 'b']
  else if c = '\t' then ['\\', 't']
  else if c = '\n' then ['\\', 'n']
  else if c = '\x0c' then ['\\', 'f']
  else if c = '\r' then ['\\', 'r']
  else if 32 ≤ c.toNat ∧ c.toNat ≤ 126 then [c]
  else if c.toNat < 65536 then '\\' :: 'u' :: hex4 c.toNat
  else ('\\' :: 'u' :: hex4 (55296 + (c.toNat - 65536) / 1024)) ++
       ('\\' :: 'u' :: hex4 (56320 + (c.toNat - 65536) % 1024))

/-- Escape every character of a string body. -/
def escapeList : List Char → List Char
  | [] => []
  | c :: cs => escapeChar c ++ escapeList cs

/-- A JSON string literal: opening quote, escaped body, closing quote. -/
def renderStr (s : String) : List Char :=
  '"' :: (escapeList s.data ++ ['"'])

mutual
/-- Characters of `json.dumps` applied to a `Json` value (CPython default
separators: `", "` between items, `": "` after keys). -/
def Json.dumpsL : Json → List Char
  | .null => "null".data
  | .bool true => "true".data
  | .bool false => "false".data
  | .num n => (toString n).data
  | .str s => renderStr s
  | .arr es => '[' :: (Json.dumpsElems es ++ [']'])
  | .obj fs => '{' :: (Json.dumpsFields fs ++ ['}'])
/-- Array elements joined by `", "`. -/
def Json.dumpsElems : List Json → List Char
  | [] => []
  | [e] => Json.dumpsL e
  | e :: e2 :: es => Json.dumpsL e ++ ',' :: ' ' :: Json.dumpsElems (e2 :: es)
/-- Object members `"key": value` joined by `", "`. -/
def Json.dumpsFields : List (String × Json) → List Char
  | [] => []
  | [kv] => renderStr kv.1 ++ ':' :: ' ' :: Json.dumpsL kv.2
  | kv :: kv2 :: fs =>
      renderStr kv.1 ++ ':' :: ' ' :: Json.dumpsL kv.2 ++
        ',' :: ' ' :: Json.dumpsFields (kv2 :: fs)
end

/-- `json.dumps` as a string. -/
def Json.dumps (j : Json) : String := ⟨Json.dumpsL j⟩

/-! ### The provider event model

Constructors carry exactly the attributes `SSEManager._format_event`
(src/app/streaming.py:41-148) dereferences for each `event.type`: a bare
attribute access is a required field, a `getattr(..., default)` access is an
`Option` field (`none` models the attribute being absent). -/

/-- Fields of `event.content_block` read in the `content_block_start`
branch: `type` is a bare access; `text`, `id`, `name`, `input` go through
`getattr` with defaults `''`, `None`, `None`, `None`. -/
structure ContentBlockVal where
  type : String
  text : Option String
  id : Option String
  name : Option String
  input : Option Json

/-- Fields of `event.delta` read in the `content_block_delta` branch. -/
structure DeltaVal where
  type : String
  text : Option String
  partial_json : Option String

/-- Fields of `event.message.usage` read in the `message_start` branch
(all four through `getattr` with default `0`). -/
structure UsageVal where
  input_tokens : Option Int
  output_tokens : Option Int
  cache_creation_input_tokens : Option Int
  cache_read_input_tokens : Option Int

/-- Fields of `event.message` read in the `message_start` branch; `usage`
is `none` when the attribute is absent or falsy (the code guards with
`hasattr(event.message, 'usage') and event.message.usage`). -/
structure MessageVal where
  id : String
  type : String
  role : String
  model : String
  usage : Option UsageVal

/-- Fields of `event.delta` read in the `message_delta` branch (both
through `getattr` with default `None`). -/
structure MessageDeltaVal where
  stop_reason : Option String
  stop_sequence : Option String

/-- The `usage` attribute of a `message_delta` event. The code calls
mapping-style `.get('output_tokens', 0)` on it: this succeeds on a Python
dict (`dict`) and raises `AttributeError` on the structured pydantic object
the SDK actually attaches (`structured`). -/
inductive MDUsage where
  | dict (entries : List (String × Int))
  | structured (output_tokens : Int)

/-- One provider event, discriminated as `_format_event` discriminates it:
the nine recognized `event.type` strings, `other` for any event whose
`type` is some other string (with its `str(event)` representation), and
`untyped` for an event with no `type` attribute at all. -/
inductive ProviderEvent where
  | text (text : String) (snapshot : Option String)
  | input_json (partial_json : Option String) (snapshot : Option String)
  | content_block_start (index : Int) (content_block : ContentBlockVal)
  | content_block_delta (index : Int) (delta : DeltaVal)
  | content_block_stop (index : Int) (content_block : Option Json)
  | message_start (message : MessageVal)
  | message_delta (delta : MessageDeltaVal) (usage : Option MDUsage)
  | message_stop (message : Option Json)
  | ping
  | other (type : String) (stringRep : String)
  | untyped (stringRep : String)

/-- The `type` discriminator of an event as a string: the recognized kind,
the echoed kind for `other`, and `"unknown"` for an event exposing none. -/
def eventKind : ProviderEvent → String
  | .text .. => "text"
  | .input_json .. => "input_json"
  | .content_block_start .. => "content_block_start"
  | .content_block_delta .. => "content_block_delta"
  | .content_block_stop .. => "content_block_stop"
  | .message_start .. => "message_start"
  | .message_delta .. => "message_delta"
  | .message_stop .. => "message_stop"
  | .ping => "ping"
  | .other k _ => k
  | .untyped _ => "unknown"

/-- A Python `None`-able string rendered into JSON. -/
def optStrJson : Option String → Json
  | none => .null
  | some s => .str s

/-- The nine `event.type` strings `_format_event` recognizes, in source
branch order. -/
def knownEventKinds : List String :=
  ["text", "input_json", "content_block_start", "content_block_delta",
   "content_block_stop", "message_start", "message_delta", "message_stop",
   "ping"]

namespace SSEManager

/-- Shallow embedding of `SSEManager._format_event`
(src/app/streaming.py:41-148). Each branch returns the dictionary the
source builds, keys in source order; the only failing path is the
`message_delta` branch, whose `getattr(event, 'usage', {}).get(...)` call
raises `AttributeError` when `event.usage` is a structured (non-mapping)
object. -/
def _format_event : ProviderEvent → Except String Json
  | .text t snap =>
      .ok (.obj [("type", .str "text"), ("text", .str t),
        ("snapshot", .str (snap.getD ""))])
  | .input_json pj snap =>
      .ok (.obj [("type", .str "input_json"),
        ("partial_json", .str (pj.getD "")),
        ("snapshot", .str (snap.getD ""))])
  | .content_block_start i cb =>
      .ok (.obj [("type", .str "content_block_start"), ("index", .num i),
        ("content_block", .obj [("type", .str cb.type),
          ("text", .str (cb.text.getD "")), ("id", optStrJson cb.id),
          ("name", optStrJson cb.name), ("input", cb.input.getD .null)])])
  | .content_block_delta i d =>
      .ok (.obj [("type", .str "content_block_delta"), ("index", .num i),
        ("delta", .obj [("type", .str d.type),
          ("text", .str (d.text.getD "")),
          ("partial_json", .str (d.partial_json.getD ""))])])
  | .content_block_stop i cb =>
      .ok (.obj [("type", .str "content_block_stop"), ("index", .num i),
        ("content_block", cb.getD .null)])
  | .message_start m =>
      .ok (.obj [("type", .str "message_start"),
        ("message", .obj [("id", .str m.id), ("type", .str m.type),
          ("role", .str m.role), ("model", .str m.model),
          ("content", .arr []), ("stop_reason", .null),
          ("stop_sequence", .null),
          ("usage", match m.usage with
            | some u => .obj [
                ("input_tokens", .num (u.input_tokens.getD 0)),
                ("output_tokens", .num (u.output_tokens.getD 0)),
                ("cache_creation_input_tokens",
                  .num (u.cache_creation_input_tokens.getD 0)),
                ("cache_read_input_tokens",
                  .num (u.cache_read_input_tokens.getD 0))]
            | none => .obj [
                ("input_tokens", .num 0), ("output_tokens", .num 0),
                ("cache_creation_input_tokens", .num 0),
                ("cache_read_input_tokens", .num 0)])])])
  | .message_delta d u =>
      match u with
      | none =>
          .ok (.obj [("type", .str "message_delta"),
            ("delta", .obj [("stop_reason", optStrJson d.stop_reason),
              ("stop_sequence", optStrJson d.stop_sequence)]),
            ("usage", .obj [("output_tokens", .num 0)])])
      | some (.dict entries) =>
          .ok (.obj [("type", .str "message_delta"),
            ("delta", .obj [("stop_reason", optStrJson d.stop_reason),
              ("stop_sequence", optStrJson d.stop_sequence)]),
            ("usage", .obj [("output_tokens",
              .num ((entries.lookup "output_tokens").getD 0))])])
      | some (.structured _) =>
          .error "AttributeError: MessageDeltaUsage object has no attribute get"
  | .message_stop m =>
      .ok (.obj [("type", .str "message_stop"), ("message", m.getD .null)])
  | .ping =>
      .ok (.obj [("type", .str "ping")])
  | .other k s =>
      .ok (.obj [("type", .str k), ("data", .str s)])
  | .untyped s =>
      .ok (.obj [("type", .str "unknown"), ("data", .str s)])

/-- One SSE frame: the `f"data: {json.dumps(event_data)}\n\n"` wire line. -/
def sseFrame (j : Json) : String := "data: " ++ Json.dumps j ++ "\n\n"

/-- The in-band error payload built in the `except` handler of
`stream_message_events`. -/
def errorEvent (msg : String) : Json :=
  .obj [("type", .str "error"), ("error", .str msg)]

/-- Shallow embedding of `SSEManager.stream_message_events`
(src/app/streaming.py:21-39). The upstream iteration is a list of pull
outcomes: `.ok e` means the iterator yields event `e`, `.error m` means
the pull (or the initial `stream(**params)` call) raises with message `m`,
which ends the upstream. The relay frames each normalized event; the first
exception — from the pull or from `_format_event` — is caught by the
`except` handler, which emits one terminal error frame and ends the
sequence. -/
def stream_message_events : List (Except String ProviderEvent) → List String
  | [] => []
  | .error m :: _ => [sseFrame (errorEvent m)]
  | .ok e :: rest =>
      match _format_event e with
      | .error m => [sseFrame (errorEvent m)]
      | .ok j => sseFrame j :: stream_message_events rest

/-- The frame the relay emits for one successfully pulled event: the
normalized frame when `_format_event` succeeds, the terminal error frame
when it raises. -/
def frameOf (e : ProviderEvent) : String :=
  match _format_event e with
  | .ok j => sseFrame j
  | .error m => sseFrame (errorEvent m)

end SSEManager

/-- Whether an `Except` result is a success. -/
def okB {ε α : Type} : Except ε α → Bool
  | .ok _ => true
  | .error _ => false

/-! ### The HTTP facade -/

/-- A raised `fastapi.HTTPException`: status code and detail message. -/
structure HTTPError where
  status_code : Nat
  detail : String
deriving Repr, DecidableEq

/-- Python `str(e)` of an `HTTPException`, as starlette renders it. -/
def httpExnStr (e : HTTPError) : String :=
  toString e.status_code ++ ": " ++ e.detail

/-- Outcome of the upstream SDK call inside an endpoint's `try` block: a
success value, an `anthropic.APIError` with message, or any other
exception with message. -/
inductive Upstream (α : Type) where
  | ok (a : α)
  | apiError (msg : String)
  | exn (msg : String)

/-- Shallow embedding of `create_message` (src/main.py:171-243) at the
level of its control flow: the `if not anthropic_client` guard raises
`HTTPException(500, ...)`, which the trailing `except Exception` handler
catches and re-raises as a 500 with a wrapped message; an upstream
`APIError` becomes a 400; any other exception becomes a 500. The response
body built from the SDK message is abstracted as the upstream value. -/
def create_message {α β : Type} (anthropic_client : Option α)
    (upstream : Upstream β) : Except HTTPError β :=
  match anthropic_client with
  | none => .error ⟨500, "Internal server error: " ++
      httpExnStr ⟨500, "Anthropic client not initialized"⟩⟩
  | some _ =>
      match upstream with
      | .ok b => .ok b
      | .apiError m => .error ⟨400, m⟩
      | .exn m => .error ⟨500, "Internal server error: " ++ m⟩

/-- Shallow embedding of `count_tokens` (src/main.py:245-276); same
control flow as `create_message`. -/
def count_tokens {α β : Type} (anthropic_client : Option α)
    (upstream : Upstream β) : Except HTTPError β :=
  match anthropic_client with
  | none => .error ⟨500, "Internal server error: " ++
      httpExnStr ⟨500, "Anthropic client not initialized"⟩⟩
  | some _ =>
      match upstream with
      | .ok b => .ok b
      | .apiError m => .error ⟨400, m⟩
      | .exn m => .error ⟨500, "Internal server error: " ++ m⟩

/-- Shallow embedding of `create_batch` (src/app/batches_api.py:43-70);
same control flow: the uninitialized-client `HTTPException(500, ...)` is
caught by `except Exception` and re-raised wrapped. -/
def create_batch {α β : Type} (client : Option α)
    (upstream : Upstream β) : Except HTTPError β :=
  match client with
  | none => .error ⟨500, "Internal server error: " ++
      httpExnStr ⟨500, "Anthropic client not initialized"⟩⟩
  | some _ =>
      match upstream with
      | .ok b => .ok b
      | .apiError m => .error ⟨400, m⟩
      | .exn m => .error ⟨500, "Internal server error: " ++ m⟩

/-- One static model entry of `models_api.py`. -/
structure ModelInfo where
  id : String
  type : String
  display_name : String
  created_at : String
deriving Repr, DecidableEq

/-- The `{success, data, error}` envelope of `get_model_info`. -/
structure ModelInfoResponse where
  success : Bool
  data : Option ModelInfo
  error : Option String
deriving Repr, DecidableEq

/-- The `{success, data, error}` envelope of `list_models`. -/
structure ModelsListResponse where
  success : Bool
  data : Option (List ModelInfo)
  error : Option String
deriving Repr, DecidableEq

/-- The static `model_info_map` of `get_model_info`
(src/app/models_api.py:30-61), in source order. -/
def model_info_map : List (String × ModelInfo) :=
  [("claude-3-5-sonnet-20241022",
    ⟨"claude-3-5-sonnet-20241022", "text", "Claude 3.5 Sonnet",
     "2024-10-22T00:00:00Z"⟩),
   ("claude-3-5-haiku-20241022",
    ⟨"claude-3-5-haiku-20241022", "text", "Claude 3.5 Haiku",
     "2024-10-22T00:00:00Z"⟩),
   ("claude-3-opus-20240229",
    ⟨"claude-3-opus-20240229", "text", "Claude 3 Opus",
     "2024-02-29T00:00:00Z"⟩),
   ("claude-3-sonnet-20240229",
    ⟨"claude-3-sonnet-20240229", "text", "Claude 3 Sonnet",
     "2024-02-29T00:00:00Z"⟩),
   ("claude-3-haiku-20240307",
    ⟨"claude-3-haiku-20240307", "text", "Claude 3 Haiku",
     "2024-03-07T00:00:00Z"⟩)]

/-- The five known model ids, in map order. -/
def knownModelIds : List String := model_info_map.map Prod.fst

/-- Shallow embedding of `get_model_info` (src/app/models_api.py:23-75):
null client raises 500 (re-raised unchanged by the `except HTTPException`
arm), an id outside the static map raises 404, a known id returns the
success envelope with the static entry. -/
def get_model_info {α : Type} (client : Option α) (model_id : String) :
    Except HTTPError ModelInfoResponse :=
  match client with
  | none => .error ⟨500, "Anthropic client not initialized"⟩
  | some _ =>
      match model_info_map.lookup model_id with
      | none => .error ⟨404, "Model " ++ model_id ++ " not found"⟩
      | some d => .ok ⟨true, some d, none⟩

/-- The `static_models` list of `list_models`
(src/app/models_api.py:85-116), in source order. -/
def static_models : List ModelInfo :=
  [⟨"claude-3-5-sonnet-20241022", "text", "Claude 3.5 Sonnet",
    "2024-10-22T00:00:00Z"⟩,
   ⟨"claude-3-5-haiku-20241022", "text", "Claude 3.5 Haiku",
    "2024-10-22T00:00:00Z"⟩,
   ⟨"claude-3-opus-20240229", "text", "Claude 3 Opus",
    "2024-02-29T00:00:00Z"⟩,
   ⟨"claude-3-sonnet-20240229", "text", "Claude 3 Sonnet",
    "2024-02-29T00:00:00Z"⟩,
   ⟨"claude-3-haiku-20240307", "text", "Claude 3 Haiku",
    "2024-03-07T00:00:00Z"⟩]

/-- Shallow embedding of `list_models` (src/app/models_api.py:77-125):
null client raises 500 (wrapped by the bare `except Exception` handler,
this function has no `except HTTPException` arm), otherwise the fixed
static list is returned; no upstream call is made, so the output does not
depend on the client value. -/
def list_models {α : Type} (client : Option α) :
    Except HTTPError ModelsListResponse :=
  match client with
  | none => .error ⟨500, "Internal server error: " ++
      httpExnStr ⟨500, "Anthropic client not initialized"⟩⟩
  | some _ => .ok ⟨true, some static_models, none⟩

/-! ### A decoder for the `type` field of an emitted payload

Every dictionary `_format_event` and the error handler build lists the
`type` key first, so every serialized payload starts
`{"type": "<value>"...`; the decoder below parses that prefix back,
undoing the string escapes of the encoder. -/

/-- Value of a hexadecimal digit character (digits and lowercase letters,
the alphabet the encoder emits), `none` for any other character. -/
def hexVal (c : Char) : Option Nat :=
  if 48 ≤ c.toNat ∧ c.toNat ≤ 57 then some (c.toNat - 48)
  else if 97 ≤ c.toNat ∧ c.toNat ≤ 102 then some (c.toNat - 87)
  else none

/-- Read four hexadecimal digit characters and their combined value. -/
def readHex4 (l : List Char) : Option (Nat × List Char) :=
  match l with
  | a :: b :: c :: d :: rest =>
    match hexVal a, hexVal b, hexVal c, hexVal d with
    | some va, some vb, some vc, some vd =>
        some (va * 4096 + vb * 256 + vc * 16 + vd, rest)
    | _, _, _, _ => none
  | _ => none

/-- Continue after a `\uXXXX` read: a non-surrogate value is a character
of its own; a high surrogate must be followed by a `\uXXXX` low
surrogate, the pair combining into one astral character. -/
def uCont (n : Nat) (rest : List Char) : Option (Option Char × List Char) :=
  if 55296 ≤ n ∧ n < 56320 then
    match rest with
    | '\\' :: 'u' :: rest2 =>
      match readHex4 rest2 with
      | some (m, rest3) =>
          if 56320 ≤ m ∧ m < 57344 then
            some (some (Char.ofNat
              (65536 + (n - 55296) * 1024 + (m - 56320))), rest3)
          else none
      | none => none
    | _ => none
  else if 56320 ≤ n ∧ n < 57344 then none
  else some (some (Char.ofNat n), rest)

/-- Decode one token of a JSON string literal body: `some (none, r)` at
the closing quote, `some (some ch, r)` after decoding one (possibly
escaped) character, `none` on malformed input. Handles every escape the
encoder emits: the two specials, the five short escapes, `\uXXXX`, and
surrogate pairs. -/
def unescapeHead (l : List Char) : Option (Option Char × List Char) :=
  match l with
  | [] => none
  | c :: rest =>
    if c = '"' then some (none, rest)
    else if c = '\\' then
      match rest with
      | [] => none
      | e :: rest2 =>
        if e = '"' then some (some '"', rest2)
        else if e = '\\' then some (some '\\', rest2)
        else if e = 'b' then some (some '\x08', rest2)
        else if e = 't' then some (some '\t', rest2)
        else if e = 'n' then some (some '\n', rest2)
        else if e = 'f' then some (some '\x0c', rest2)
        else if e = 'r' then some (some '\r', rest2)
        else if e = 'u' then
          match readHex4 rest2 with
          | some (n, rest3) => uCont n rest3
          | none => none
        else none
    else some (some c, rest)

/-- Parse the body of a JSON string literal after its opening quote, one
token at a time, bounded by a fuel counter (each token consumes at least
one character, so any fuel above the input length is enough); returns the
decoded characters together with the remainder following the closing
quote. -/
def parseStrBodyAux : Nat → List Char → Option (List Char × List Char)
  | 0, _ => none
  | fuel + 1, l =>
    match unescapeHead l with
    | none => none
    | some (none, r) => some ([], r)
    | some (some ch, r) =>
        (parseStrBodyAux fuel r).map (fun q => (ch :: q.1, q.2))

/-- Parse a JSON string literal body with sufficient fuel. -/
def parseStrBody (l : List Char) : Option (List Char × List Char) :=
  parseStrBodyAux (l.length + 1) l

/-- Parse a JSON string literal including its opening quote. -/
def parseStringLit : List Char → Option (List Char × List Char)
  | '"' :: r => parseStrBody r
  | _ => none

/-- Extract the value of a leading `"type"` key from serialized JSON
object text of shape `{"type": "<value>"...`, decoding the value. -/
def extractTypeFieldL (p : List Char) : Option String :=
  match p with
  | '{' :: r =>
    match parseStringLit r with
    | some (key, r1) =>
      if key = "type".data then
        match r1 with
        | ':' :: ' ' :: r2 =>
          match parseStringLit r2 with
          | some (v, _) => some ⟨v⟩
          | none => none
        | _ => none
      else none
    | none => none
  | _ => none

/-- Extract the `type` field from a serialized payload string. -/
def extractTypeField (p : String) : Option String := extractTypeFieldL p.data

/-- The `HealthResponse` body of `/health` (src/main.py:118-121). -/
structure HealthResponse where
  status : String
  version : String
  clients_initialized : Bool
deriving Repr, DecidableEq

/-- Shallow embedding of `health_check` (src/main.py:162-169): the status
and version are constants; only `clients_initialized` depends on whether
both global clients are non-null. -/
def health_check {α β : Type} (anthropic_client : Option α)
    (async_anthropic_client : Option β) : HealthResponse :=
  ⟨"healthy", "1.0.0",
   anthropic_client.isSome && async_anthropic_client.isSome⟩

/-! ## Helper lemmas: the string codec round-trip -/

/-- Hexadecimal digit characters decode to their value. -/
theorem hexVal_hexDigitChar : ∀ d < 16, hexVal (hexDigitChar d) = some d := by
  decide

/-- The scalar value of a character is below 0x110000 and never a UTF-16
surrogate. -/
theorem char_toNat_valid (c : Char) :
    c.toNat < 55296 ∨ (57344 ≤ c.toNat ∧ c.toNat < 1114112) := by
  rcases c.valid with h | ⟨h1, h2⟩
  · exact Or.inl h
  · exact Or.inr ⟨h1, h2⟩

/-- Decoding at a closing quote ends the string body. -/
theorem unescapeHead_quote (t : List Char) :
    unescapeHead ('"' :: t) = some (none, t) := rfl

/-- Reading back four rendered hex digits yields the encoded value. -/
theorem readHex4_hex4 (n : Nat) (h : n < 65536) (rest : List Char) :
    readHex4 (hex4 n ++ rest) = some (n, rest) := by
  rw [hex4]
  simp only [List.cons_append, List.nil_append, readHex4]
  rw [hexVal_hexDigitChar (n / 4096 % 16) (by omega),
      hexVal_hexDigitChar (n / 256 % 16) (by omega),
      hexVal_hexDigitChar (n / 16 % 16) (by omega),
      hexVal_hexDigitChar (n % 16) (by omega)]
  simp only []
  have hrec : n / 4096 % 16 * 4096 + n / 256 % 16 * 256 + n / 16 % 16 * 16 +
      n % 16 = n := by omega
  rw [hrec]

/-- Decoding one escaped character undoes the escape, whatever follows. -/
theorem unescapeHead_escapeChar (c : Char) (t : List Char) :
    unescapeHead (escapeChar c ++ t) = some (some c, t) := by
  have hval := char_toNat_valid c
  by_cases h1 : c = '"'
  · subst h1; rfl
  by_cases h2 : c = '\\'
  · subst h2; rfl
  by_cases h3 : c = '\x08'
  · subst h3; rfl
  by_cases h4 : c = '\t'
  · subst h4; rfl
  by_cases h5 : c = '\n'
  · subst h5; rfl
  by_cases h6 : c = '\x0c'
  · subst h6; rfl
  by_cases h7 : c = '\r'
  · subst h7; rfl
  rw [escapeChar, if_neg h1, if_neg h2, if_neg h3, if_neg h4, if_neg h5,
      if_neg h6, if_neg h7]
  by_cases h8 : 32 ≤ c.toNat ∧ c.toNat ≤ 126
  · rw [if_pos h8]
    simp only [List.singleton_append, unescapeHead]
    rw [if_neg h1, if_neg h2]
  rw [if_neg h8]
  by_cases h9 : c.toNat < 65536
  · rw [if_pos h9]
    simp only [List.cons_append, unescapeHead]
    rw [if_neg (by decide : ¬('\\' : Char) = '"'), if_true,
        if_neg (by decide : ¬('u' : Char) = '"'),
        if_neg (by decide : ¬('u' : Char) = '\\'),
        if_neg (by decide : ¬('u' : Char) = 'b'),
        if_neg (by decide : ¬('u' : Char) = 't'),
        if_neg (by decide : ¬('u' : Char) = 'n'),
        if_neg (by decide : ¬('u' : Char) = 'f'),
        if_neg (by decide : ¬('u' : Char) = 'r'), if_true,
        readHex4_hex4 c.toNat h9 t]
    simp only [uCont]
    rw [if_neg (by omega), if_neg (by omega), Char.ofNat_toNat]
  rw [if_neg h9]
  generalize hgh : 55296 + (c.toNat - 65536) / 1024 = hi
  generalize hgl : 56320 + (c.toNat - 65536) % 1024 = lo
  simp only [List.cons_append, List.append_assoc, unescapeHead]
  rw [if_neg (by decide : ¬('\\' : Char) = '"'), if_true,
      if_neg (by decide : ¬('u' : Char) = '"'),
      if_neg (by decide : ¬('u' : Char) = '\\'),
      if_neg (by decide : ¬('u' : Char) = 'b'),
      if_neg (by decide : ¬('u' : Char) = 't'),
      if_neg (by decide : ¬('u' : Char) = 'n'),
      if_neg (by decide : ¬('u' : Char) = 'f'),
      if_neg (by decide : ¬('u' : Char) = 'r'), if_true,
      readHex4_hex4 hi (by omega)]
  simp only [uCont]
  rw [if_pos (by omega : 55296 ≤ hi ∧ hi < 56320)]
  rw [readHex4_hex4 lo (by omega)]
  simp only []
  rw [if_pos (by omega : 56320 ≤ lo ∧ lo < 57344)]
  have hchar : 65536 + (hi - 55296) * 1024 + (lo - 56320) = c.toNat := by omega
  rw [hchar, Char.ofNat_toNat]

/-- Each escaped character occupies at least one output character. -/
theorem escapeChar_length_pos (c : Char) : 1 ≤ (escapeChar c).length := by
  rw [escapeChar]
  split_ifs <;> simp [hex4]

/-- Escaping never shortens a string body. -/
theorem length_le_escapeList (s : List Char) :
    s.length ≤ (escapeList s).length := by
  induction s with
  | nil => simp [escapeList]
  | cons c cs ih =>
      rw [escapeList]
      simp only [List.length_append, List.length_cons]
      have := escapeChar_length_pos c
      omega

/-- With enough fuel, parsing an escaped body stops exactly at the closing
quote and recovers the body. -/
theorem parseStrBodyAux_escape (s : List Char) : ∀ fuel : Nat, s.length < fuel →
    ∀ rest : List Char,
    parseStrBodyAux fuel (escapeList s ++ '"' :: rest) = some (s, rest) := by
  induction s with
  | nil =>
      intro fuel hf rest
      match fuel, hf with
      | fuel + 1, _ =>
        simp [escapeList, parseStrBodyAux, unescapeHead_quote]
  | cons c cs ih =>
      intro fuel hf rest
      match fuel, hf with
      | fuel + 1, hf =>
        rw [escapeList, List.append_assoc]
        simp only [parseStrBodyAux]
        rw [unescapeHead_escapeChar]
        simp only []
        rw [ih fuel (by simp at hf; omega) rest]
        rfl

/-- Parsing a rendered string literal recovers the original body. -/
theorem parseStringLit_renderStr (s : String) (t : List Char) :
    parseStringLit (renderStr s ++ t) = some (s.data, t) := by
  rw [renderStr]
  simp only [List.cons_append, List.append_assoc, List.singleton_append,
    List.nil_append, parseStringLit, parseStrBody]
  rw [parseStrBodyAux_escape s.data _ (by
    have := length_le_escapeList s.data
    simp only [List.length_append, List.length_cons]
    omega) t]

/-- Extracting the type field from `{"type": "<k>"<tail>` yields `k`. -/
theorem extractTypeFieldL_head (k : String) (tail : List Char) :
    extractTypeFieldL
      ('{' :: (renderStr "type" ++ (':' :: ' ' :: (renderStr k ++ tail)))) =
      some k := by
  simp only [extractTypeFieldL]
  rw [parseStringLit_renderStr]
  simp only []
  rw [if_true, parseStringLit_renderStr]

/-- The serialized form of any object listing `type` first decodes back to
its `type` value. -/
theorem extractTypeFieldL_dumps_obj (k : String) (fs : List (String × Json)) :
    extractTypeFieldL (Json.dumpsL (.obj (("type", .str k) :: fs))) = some k := by
  cases fs with
  | nil =>
      have hshape : Json.dumpsL (.obj [("type", .str k)]) =
          '{' :: (renderStr "type" ++ (':' :: ' ' :: (renderStr k ++ ['}']))) := by
        simp [Json.dumpsL, Json.dumpsFields, List.append_assoc]
      rw [hshape, extractTypeFieldL_head]
  | cons kv fs2 =>
      have hshape : Json.dumpsL (.obj (("type", .str k) :: kv :: fs2)) =
          '{' :: (renderStr "type" ++ (':' :: ' ' :: (renderStr k ++
            (',' :: ' ' :: (Json.dumpsFields (kv :: fs2) ++ ['}']))))) := by
        simp [Json.dumpsL, Json.dumpsFields, List.append_assoc]
      rw [hshape, extractTypeFieldL_head]

/-- String form of `extractTypeFieldL_dumps_obj`. -/
theorem extractTypeField_dumps_obj (k : String) (fs : List (String × Json)) :
    extractTypeField (Json.dumps (.obj (("type", .str k) :: fs))) = some k :=
  extractTypeFieldL_dumps_obj k fs

/-! ## Helper lemmas: the normalizer and the relay -/

/-- An `Except` is `okB` exactly when it is an `ok`. -/
theorem okB_iff {e a : Type} (x : Except e a) : okB x = true ↔ ∃ v, x = .ok v := by
  cases x <;> simp [okB]

/-- Every successfully normalized event is an object whose first member is
the `type` key carrying the event kind. -/
theorem format_event_type_first (e : ProviderEvent) (j : Json)
    (h : SSEManager._format_event e = .ok j) :
    ∃ fs, j = .obj (("type", .str (eventKind e)) :: fs) := by
  cases e with
  | message_delta d u =>
      match u with
      | none => injection h with h; exact ⟨_, h.symm⟩
      | some (.dict entries) => injection h with h; exact ⟨_, h.symm⟩
      | some (.structured o) => simp [SSEManager._format_event] at h
  | text t snap => injection h with h; exact ⟨_, h.symm⟩
  | input_json pj snap => injection h with h; exact ⟨_, h.symm⟩
  | content_block_start i cb => injection h with h; exact ⟨_, h.symm⟩
  | content_block_delta i d => injection h with h; exact ⟨_, h.symm⟩
  | content_block_stop i cb => injection h with h; exact ⟨_, h.symm⟩
  | message_start m => injection h with h; exact ⟨_, h.symm⟩
  | message_stop m => injection h with h; exact ⟨_, h.symm⟩
  | ping => injection h with h; exact ⟨_, h.symm⟩
  | other k sr => injection h with h; exact ⟨_, h.symm⟩
  | untyped sr => injection h with h; exact ⟨_, h.symm⟩

/-- Every frame the relay can emit for an event has the SSE wire shape. -/
theorem frameOf_shape (e : ProviderEvent) :
    ∃ p, SSEManager.frameOf e = "data: " ++ p ++ "\n\n" := by
  rw [SSEManager.frameOf]
  cases hfe : SSEManager._format_event e with
  | ok j => exact ⟨Json.dumps j, rfl⟩
  | error m => exact ⟨Json.dumps (SSEManager.errorEvent m), rfl⟩

/-- When every event normalizes, the relay is the frame-for-frame map. -/
theorem stream_ok_map (events : List ProviderEvent)
    (h : ∀ e ∈ events, okB (SSEManager._format_event e) = true) :
    SSEManager.stream_message_events (events.map Except.ok) =
      events.map SSEManager.frameOf := by
  induction events with
  | nil => rfl
  | cons e es ih =>
      have he := h e (List.mem_cons_self e es)
      obtain ⟨j, hj⟩ := (okB_iff _).mp he
      simp only [List.map_cons, SSEManager.stream_message_events, hj,
        SSEManager.frameOf]
      rw [ih (fun x hx => h x (List.mem_cons_of_mem _ hx))]

/-- A failing pull (or failing normalization) after a clean prefix yields
the prefix frames followed by exactly one terminal error frame; whatever
would come after the failure is never consumed. -/
theorem stream_append_error (events : List ProviderEvent)
    (bad : Except String ProviderEvent)
    (rest : List (Except String ProviderEvent)) (m : String)
    (h : ∀ e ∈ events, okB (SSEManager._format_event e) = true)
    (hbad : bad = .error m ∨
      ∃ e, bad = .ok e ∧ SSEManager._format_event e = .error m) :
    SSEManager.stream_message_events (events.map Except.ok ++ bad :: rest) =
      events.map SSEManager.frameOf ++
        [SSEManager.sseFrame (SSEManager.errorEvent m)] := by
  induction events with
  | nil =>
      simp only [List.map_nil, List.nil_append]
      rcases hbad with rfl | ⟨e, rfl, hfe⟩
      · rfl
      · simp [SSEManager.stream_message_events, hfe]
  | cons e es ih =>
      have he := h e (List.mem_cons_self e es)
      obtain ⟨j, hj⟩ := (okB_iff _).mp he
      simp only [List.map_cons, List.cons_append, List.append_eq,
        SSEManager.stream_message_events, hj, SSEManager.frameOf]
      rw [ih (fun x hx => h x (List.mem_cons_of_mem _ hx))]

/-! ## Claim theorems -/

/-- C1: the spec claims the Event Shape Normalizer returns exactly one
normalized mapping for every provider event and never raises. The code
violates this: for a `message_delta` event whose `usage` attribute is a
structured (non-mapping) object — the shape the SDK actually attaches —
the mapping-style `getattr(event, 'usage', \x7b\x7d).get('output_tokens', 0)`
call raises `AttributeError` instead of producing a mapping. -/
theorem c1_normalizer_raises_on_structured_usage :
    SSEManager._format_event
      (.message_delta ⟨none, none⟩ (some (.structured 7))) =
      .error "AttributeError: MessageDeltaUsage object has no attribute get" ∧
    okB (SSEManager._format_event
      (.message_delta ⟨none, none⟩ (some (.structured 7)))) = false :=
  ⟨rfl, rfl⟩

/-- C2: for a finite upstream sequence in which every pull succeeds and
every event normalizes, the relay emits exactly one SSE frame per event,
the i-th frame being the frame of the i-th event (same relative order),
and every emitted frame has the exact shape `data: <json>\n\n`. -/
theorem c2_relay_one_frame_per_event (events : List ProviderEvent)
    (h : ∀ e ∈ events, okB (SSEManager._format_event e) = true) :
    (SSEManager.stream_message_events (events.map Except.ok)).length =
      events.length ∧
    (∀ (i : Nat) (e : ProviderEvent), events[i]? = some e →
      ∃ j, SSEManager._format_event e = .ok j ∧
        (SSEManager.stream_message_events (events.map Except.ok))[i]? =
          some (SSEManager.sseFrame j)) ∧
    (∀ f ∈ SSEManager.stream_message_events (events.map Except.ok),
      ∃ p, f = "data: " ++ p ++ "\n\n") := by
  have hmap := stream_ok_map events h
  refine ⟨by rw [hmap]; simp, ?_, ?_⟩
  · intro i e hi
    have hmem : e ∈ events := List.getElem?_mem hi
    obtain ⟨j, hj⟩ := (okB_iff _).mp (h e hmem)
    refine ⟨j, hj, ?_⟩
    rw [hmap, List.getElem?_map, hi]
    simp [SSEManager.frameOf, hj]
  · intro f hfmem
    rw [hmap] at hfmem
    obtain ⟨e, he, rfl⟩ := List.mem_map.mp hfmem
    exact frameOf_shape e

/-- C2 witness: the relay on the two-event upstream `[ping, message_stop]`
emits exactly two frames. -/
theorem c2_witness :
    (SSEManager.stream_message_events
      ([ProviderEvent.ping, ProviderEvent.message_stop none].map
        Except.ok)).length = 2 := by
  have h := c2_relay_one_frame_per_event
    [ProviderEvent.ping, ProviderEvent.message_stop none] (by decide)
  simpa using h.1

/-- C3: when the (k+1)-th pull fails (`bad = .error m`) or the pulled
event fails to normalize (`bad = .ok e` with `_format_event e` raising),
after k successfully processed events, the relay emits exactly the k
success frames followed by exactly one terminal error frame whose payload
is the `\x7btype: "error", error: <message>\x7d` object, and nothing after it
(the tail after the failure is never consumed); with `events = []` this
gives exactly one error frame preceded by zero success frames. -/
theorem c3_relay_error_tail (events : List ProviderEvent)
    (bad : Except String ProviderEvent)
    (rest : List (Except String ProviderEvent)) (m : String)
    (h : ∀ e ∈ events, okB (SSEManager._format_event e) = true)
    (hbad : bad = .error m ∨
      ∃ e, bad = .ok e ∧ SSEManager._format_event e = .error m) :
    SSEManager.stream_message_events (events.map Except.ok ++ bad :: rest) =
      events.map SSEManager.frameOf ++
        [SSEManager.sseFrame (SSEManager.errorEvent m)] ∧
    (events.map SSEManager.frameOf).length = events.length ∧
    (∀ e ∈ events, ∃ j, SSEManager._format_event e = .ok j ∧
      SSEManager.frameOf e = SSEManager.sseFrame j) := by
  refine ⟨stream_append_error events bad rest m h hbad, by simp, ?_⟩
  intro e he
  obtain ⟨j, hj⟩ := (okB_iff _).mp (h e he)
  exact ⟨j, hj, by simp [SSEManager.frameOf, hj]⟩

/-- C3 witness: one good event then a failing pull yields the success
frame followed by one error frame. -/
theorem c3_witness :
    SSEManager.stream_message_events
      ([ProviderEvent.ping].map Except.ok ++ Except.error "boom" :: []) =
      [ProviderEvent.ping].map SSEManager.frameOf ++
        [SSEManager.sseFrame (SSEManager.errorEvent "boom")] :=
  (c3_relay_error_tail [ProviderEvent.ping] (Except.error "boom") [] "boom"
    (by decide) (Or.inl rfl)).1

/-- C4: for a `message_delta` event the normalizer returns a `delta`
object carrying `stop_reason` and `stop_sequence` and a `usage` object
whose `output_tokens` is the event's usage output-token count (0 when the
`usage` attribute is absent) — but only when `usage` is absent or a
mapping; when `usage` is a structured object, the `.get` call raises
instead of defaulting, so "without failing" is violated by the code. -/
theorem c4_message_delta_fields :
    (∀ (d : MessageDeltaVal) (entries : List (String × Int)),
      SSEManager._format_event (.message_delta d (some (.dict entries))) =
        .ok (.obj [("type", .str "message_delta"),
          ("delta", .obj [("stop_reason", optStrJson d.stop_reason),
            ("stop_sequence", optStrJson d.stop_sequence)]),
          ("usage", .obj [("output_tokens",
            .num ((entries.lookup "output_tokens").getD 0))])])) ∧
    (∀ d : MessageDeltaVal,
      SSEManager._format_event (.message_delta d none) =
        .ok (.obj [("type", .str "message_delta"),
          ("delta", .obj [("stop_reason", optStrJson d.stop_reason),
            ("stop_sequence", optStrJson d.stop_sequence)]),
          ("usage", .obj [("output_tokens", .num 0)])])) ∧
    (∀ (d : MessageDeltaVal) (o : Int),
      okB (SSEManager._format_event
        (.message_delta d (some (.structured o)))) = false) :=
  ⟨fun d entries => rfl, fun d => rfl, fun d o => rfl⟩

/-- C5: every frame the relay emits is `data: <payload>\n\n` where
decoding the JSON `type` field of the payload yields the kind of the
originating event (`eventKind` echoes unrecognized kinds and is
`"unknown"` for an event with no discriminator) — or `"error"` for the
terminal error frame. -/
theorem c5_payload_type_decodes (input : List (Except String ProviderEvent)) :
    ∀ (i : Nat) (f : String),
    (SSEManager.stream_message_events input)[i]? = some f →
    ∃ p, f = "data: " ++ p ++ "\n\n" ∧
      ((∃ e j, input[i]? = some (.ok e) ∧
          SSEManager._format_event e = .ok j ∧ p = Json.dumps j ∧
          extractTypeField p = some (eventKind e)) ∨
        extractTypeField p = some "error") := by
  induction input with
  | nil =>
      intro i f hf
      simp [SSEManager.stream_message_events] at hf
  | cons x rest ih =>
      intro i f hf
      match x with
      | .error m =>
          match i with
          | 0 =>
              simp only [SSEManager.stream_message_events,
                List.getElem?_cons_zero, Option.some.injEq] at hf
              subst hf
              exact ⟨Json.dumps (SSEManager.errorEvent m), rfl,
                Or.inr (extractTypeField_dumps_obj "error" _)⟩
          | i + 1 =>
              simp [SSEManager.stream_message_events] at hf
      | .ok e =>
          cases hfe : SSEManager._format_event e with
          | error m =>
              match i with
              | 0 =>
                  simp only [SSEManager.stream_message_events, hfe,
                    List.getElem?_cons_zero, Option.some.injEq] at hf
                  subst hf
                  exact ⟨Json.dumps (SSEManager.errorEvent m), rfl,
                    Or.inr (extractTypeField_dumps_obj "error" _)⟩
              | i + 1 =>
                  simp [SSEManager.stream_message_events, hfe] at hf
          | ok j =>
              match i with
              | 0 =>
                  simp only [SSEManager.stream_message_events, hfe,
                    List.getElem?_cons_zero, Option.some.injEq] at hf
                  subst hf
                  obtain ⟨fs, hj⟩ := format_event_type_first e j hfe
                  refine ⟨Json.dumps j, rfl,
                    Or.inl ⟨e, j, by simp, hfe, rfl, ?_⟩⟩
                  rw [hj]
                  exact extractTypeField_dumps_obj _ _
              | i + 1 =>
                  simp only [SSEManager.stream_message_events, hfe,
                    List.getElem?_cons_succ] at hf
                  obtain ⟨p, hp, hrest⟩ := ih i f hf
                  refine ⟨p, hp, ?_⟩
                  rcases hrest with ⟨e2, j2, he2, hj2, hp2, ht⟩ | ht
                  · exact Or.inl ⟨e2, j2, by simpa using he2, hj2, hp2, ht⟩
                  · exact Or.inr ht

/-- C5 witness: the frame for a `ping` event decodes to type `"ping"`. -/
theorem c5_witness :
    ∃ p, SSEManager.sseFrame (.obj [("type", Json.str "ping")]) =
      "data: " ++ p ++ "\n\n" ∧
      ((∃ e j, ([Except.ok ProviderEvent.ping] :
          List (Except String ProviderEvent))[0]? = some (.ok e) ∧
          SSEManager._format_event e = .ok j ∧ p = Json.dumps j ∧
          extractTypeField p = some (eventKind e)) ∨
        extractTypeField p = some "error") :=
  c5_payload_type_decodes [Except.ok ProviderEvent.ping] 0
    (SSEManager.sseFrame (.obj [("type", Json.str "ping")])) rfl

/-- C6: an event of an unrecognized kind falls back to
`\x7btype: <kind>, data: <string representation>\x7d` and an event exposing no
type discriminator to `\x7btype: "unknown", data: <string representation>\x7d`,
both without error — no event is dropped. -/
theorem c6_fallback_unrecognized (k s : String) (hk : k ∉ knownEventKinds) :
    SSEManager._format_event (.other k s) =
      .ok (.obj [("type", .str k), ("data", .str s)]) ∧
    (∀ t : String, SSEManager._format_event (.untyped t) =
      .ok (.obj [("type", .str "unknown"), ("data", .str t)])) ∧
    okB (SSEManager._format_event (.other k s)) = true :=
  ⟨rfl, fun t => rfl, rfl⟩

/-- C6 witness: a concrete unrecognized kind takes the fallback branch. -/
theorem c6_witness :
    SSEManager._format_event (.other "brand_new_kind" "ReprText") =
      .ok (.obj [("type", .str "brand_new_kind"),
        ("data", .str "ReprText")]) :=
  (c6_fallback_unrecognized "brand_new_kind" "ReprText" (by decide)).1

/-- C7 counterexample: the claim says an uninitialized upstream client
makes the unary endpoints respond with HTTP service-unavailable (503);
the code raises status 500 instead (the inner `HTTPException(500, ...)`
is even re-wrapped by the broad `except Exception` handler). -/
theorem c7_counterexample :
    create_message (none : Option Unit) (Upstream.ok (0 : Nat)) =
      .error ⟨500,
        "Internal server error: 500: Anthropic client not initialized"⟩ ∧
    (500 : Nat) ≠ 503 :=
  ⟨rfl, by decide⟩

/-- C7 amended: with the upstream client uninitialized (`none`), message
creation, token counting and batch creation all fail with an HTTP 500
internal-server-error instead of completing, for every upstream
outcome. -/
theorem c7_uninitialized_client_500 {α β : Type} (u1 u2 u3 : Upstream β) :
    create_message (none : Option α) u1 =
      .error ⟨500, "Internal server error: " ++
        httpExnStr ⟨500, "Anthropic client not initialized"⟩⟩ ∧
    count_tokens (none : Option α) u2 =
      .error ⟨500, "Internal server error: " ++
        httpExnStr ⟨500, "Anthropic client not initialized"⟩⟩ ∧
    create_batch (none : Option α) u3 =
      .error ⟨500, "Internal server error: " ++
        httpExnStr ⟨500, "Anthropic client not initialized"⟩⟩ :=
  ⟨rfl, rfl, rfl⟩

/-- C8: with a non-null client, `get_model_info` fails with HTTP 404 for
every id outside the five-entry static map, and for each of the five
known ids returns the success envelope whose data is the static entry
with matching `id` (carrying `type`, `display_name`, `created_at`). -/
theorem c8_get_model_info_static {α : Type} (c : α) (mid : String) :
    (mid ∉ knownModelIds →
      get_model_info (some c) mid =
        .error ⟨404, "Model " ++ mid ++ " not found"⟩) ∧
    (mid ∈ knownModelIds →
      ∃ d, get_model_info (some c) mid = .ok ⟨true, some d, none⟩ ∧
        d.id = mid ∧ (mid, d) ∈ model_info_map) := by
  constructor
  · intro hmid
    simp only [knownModelIds, model_info_map, List.map_cons, List.map_nil,
      List.mem_cons, List.not_mem_nil, or_false, not_or] at hmid
    obtain ⟨h1, h2, h3, h4, h5⟩ := hmid
    simp [get_model_info, model_info_map, List.lookup,
      beq_eq_false_iff_ne.mpr h1, beq_eq_false_iff_ne.mpr h2,
      beq_eq_false_iff_ne.mpr h3, beq_eq_false_iff_ne.mpr h4,
      beq_eq_false_iff_ne.mpr h5]
  · intro hmid
    simp only [knownModelIds, model_info_map, List.map_cons, List.map_nil,
      List.mem_cons, List.not_mem_nil, or_false] at hmid
    rcases hmid with rfl | rfl | rfl | rfl | rfl
    all_goals exact ⟨_, rfl, rfl, by simp [model_info_map]⟩

/-- C8 witness: an unknown id gives 404 and a known id gives its static
entry. -/
theorem c8_witness :
    get_model_info (some ()) "gpt-4" =
      .error ⟨404, "Model " ++ "gpt-4" ++ " not found"⟩ ∧
    ∃ d, get_model_info (some ()) "claude-3-opus-20240229" =
      .ok ⟨true, some d, none⟩ ∧ d.id = "claude-3-opus-20240229" ∧
      ("claude-3-opus-20240229", d) ∈ model_info_map :=
  ⟨(c8_get_model_info_static () "gpt-4").1 (by decide),
   (c8_get_model_info_static () "claude-3-opus-20240229").2 (by decide)⟩

/-- C9: for every non-null client, `list_models` returns the same fixed
success envelope holding the same five models in the same order — it
consults no upstream call, so any two non-null clients (of any types)
produce identical output. -/
theorem c9_list_models_fixed {α β : Type} (c : α) (d : β) :
    list_models (some c) = list_models (some d) ∧
    list_models (some c) = .ok ⟨true, some static_models, none⟩ ∧
    static_models.length = 5 ∧
    static_models.map ModelInfo.id =
      ["claude-3-5-sonnet-20241022", "claude-3-5-haiku-20241022",
       "claude-3-opus-20240229", "claude-3-sonnet-20240229",
       "claude-3-haiku-20240307"] :=
  ⟨rfl, rfl, rfl, rfl⟩

/-- C10: the health endpoint reports status `"healthy"` and version
`"1.0.0"` for every client state; only `clients_initialized` varies (true
exactly when both clients are non-null), so an uninitialized service
still reports itself healthy. -/
theorem c10_health_always_healthy {α β : Type} (c : Option α) (d : Option β) :
    (health_check c d).status = "healthy" ∧
    (health_check c d).version = "1.0.0" ∧
    (health_check c d).clients_initialized = (c.isSome && d.isSome) :=
  ⟨rfl, rfl, rfl⟩

end AnthropicServer
